import Mathlib

/-!
Verification of the sentinel-playground product discovery pipeline.

Shallow embedding of the pure decision logic of `sentinel_download.py`
(namespace `SentinelDownload`) and `sentinel_download_cdse.py`
(namespace `SentinelDownloadCdse`): tile-path resolution, GeoJSON→WKT
conversion, date normalisation, OData filter construction, catalog
record normalisation and best-product selection.

Python run-time errors raised by this code (ValueError, IndexError) are
modelled with an explicit error type and `Except`.
-/

/-- A Python exception escaping one of the modelled functions.
`valueError` carries the message of an explicit or built-in ValueError
(the message of `int()` failures is abbreviated); `indexError` models an
IndexError from an out-of-range positional access. -/
inductive PyErr where
  | valueError (msg : String)
  | indexError
deriving Repr, DecidableEq

instance {ε α : Type} [DecidableEq ε] [DecidableEq α] : DecidableEq (Except ε α) := fun
  | .ok a, .ok b =>
    if h : a = b then .isTrue (by rw [h]) else .isFalse (by simp [h])
  | .error e, .error f =>
    if h : e = f then .isTrue (by rw [h]) else .isFalse (by simp [h])
  | .ok _, .error _ => .isFalse (by simp)
  | .error _, .ok _ => .isFalse (by simp)

/-- Python's slice `s[a:b]` (for `0 ≤ a ≤ b`) on a list of characters:
drop the first `a`, keep at most `b - a`.  Like Python, this clamps at
the end of the list and never fails. -/
def pySlice (l : List Char) (a b : Nat) : List Char :=
  (l.drop a).take (b - a)

/-- The numeric value of a digit string, most significant digit first. -/
def digitsVal (l : List Char) : Nat :=
  l.foldl (fun n c => 10 * n + (c.toNat - 48)) 0

/-- Python's `int(s)` restricted to the shapes reachable in this code:
a non-empty all-digit string parses to its value, anything else raises
ValueError.  (Python's `int` also accepts signs, underscores and
surrounding whitespace; no call site here can receive those.) -/
def pyIntOfString (l : List Char) : Option Nat :=
  if !l.isEmpty && l.all Char.isDigit then some (digitsVal l) else none

namespace SentinelDownload

/-- `construct_s3_path` of `sentinel_download.py` (lines 139-167):
slices the tile field `title[38:44]` and the date field `title[11:19]`
out of the product title by character position and assembles the
object-store key, stripping leading zeros from month and day via
`str(int(...))`.  A failing `int()` surfaces as a ValueError. -/
def construct_s3_path (product_title : String) : Except PyErr String :=
  let cs := product_title.data
  let tile_id := pySlice cs 38 44
  let utm_zone := pySlice tile_id 1 3
  let latitude_band := pySlice tile_id 3 4
  let square := pySlice tile_id 4 6
  let date_part := pySlice cs 11 19
  let year := pySlice date_part 0 4
  match pyIntOfString (pySlice date_part 4 6) with
  | none => .error (.valueError "invalid literal for int")
  | some month =>
    match pyIntOfString (pySlice date_part 6 8) with
    | none => .error (.valueError "invalid literal for int")
    | some day =>
      .ok ("tiles/" ++ String.mk utm_zone ++ "/" ++ String.mk latitude_band ++ "/"
        ++ String.mk square ++ "/" ++ String.mk year ++ "/"
        ++ toString month ++ "/" ++ toString day ++ "/")

end SentinelDownload

namespace SentinelDownloadCdse

/-- A GeoJSON geometry as consumed by `geojson_to_wkt` of
`sentinel_download_cdse.py`: a type tag and a list of rings, each ring a
list of (longitude, latitude) pairs.  Coordinate numbers are modelled as
integers; the source interpolates Python numbers into the output string
and nothing in the verified claims depends on fractional rendering. -/
structure GeoJson where
  type : String
  coordinates : List (List (Int × Int))
deriving Repr, DecidableEq

/-- `geojson_to_wkt` (lines 63-79): rejects a non-Polygon type with
`ValueError("Only Polygon geometry is supported")`, then takes
`coordinates[0]` — the exterior ring, an IndexError when there is no
ring — and joins `"lon lat"` pairs with `", "` inside `POLYGON((...))`.
Interior rings beyond the first are silently ignored. -/
def geojson_to_wkt (geojson : GeoJson) : Except PyErr String :=
  if geojson.type ≠ "Polygon" then
    .error (.valueError "Only Polygon geometry is supported")
  else
    match geojson.coordinates with
    | [] => .error .indexError
    | coords :: _ =>
      .ok ("POLYGON((" ++
        String.intercalate ", " (coords.map fun p => toString p.1 ++ " " ++ toString p.2)
        ++ "))")

/-- The dynamically typed argument of `format_date_for_cdse`: a string,
a `datetime.date`, a `datetime.datetime` (calendar day plus a time of
day), or a value of any other type (carrying its type name for the
error message). -/
inductive DateInput where
  | strVal (s : String)
  | dateVal (y m d : Nat)
  | datetimeVal (y m d hh mi ss : Nat)
  | otherVal (tyName : String)
deriving Repr, DecidableEq

/-- `strftime` zero-padding of `%m` / `%d`: two digits for values below
100 (the only values a real `datetime.date` can carry). -/
def pad2 (n : Nat) : String :=
  if n < 10 then "0" ++ toString n else toString n

/-- `format_date_for_cdse` (lines 82-98): a string is sliced as
`YYYYMMDD` without validation; a date or datetime is rendered with
`strftime("%Y-%m-%dT00:00:00.000Z")` (the time-of-day fields of a
datetime are ignored — the format string hard-codes midnight); any
other type raises `ValueError("Unsupported date format: ...")`. -/
def format_date_for_cdse : DateInput → Except PyErr String
  | .strVal s =>
    .ok (String.mk (pySlice s.data 0 4) ++ "-" ++ String.mk (pySlice s.data 4 6)
      ++ "-" ++ String.mk (pySlice s.data 6 8) ++ "T00:00:00.000Z")
  | .dateVal y m d =>
    .ok (toString y ++ "-" ++ pad2 m ++ "-" ++ pad2 d ++ "T00:00:00.000Z")
  | .datetimeVal y m d _ _ _ =>
    .ok (toString y ++ "-" ++ pad2 m ++ "-" ++ pad2 d ++ "T00:00:00.000Z")
  | .otherVal tyName =>
    .error (.valueError ("Unsupported date format: " ++ tyName))

/-- Hexadecimal digit characters, as used by `urllib.parse.quote`'s
uppercase percent-escapes. -/
def hexDigit (n : Nat) : Char :=
  "0123456789ABCDEF".data.getD n '0'

/-- One percent-escape `%XX` for a byte value below 256. -/
def pctEncode (b : Nat) : List Char :=
  ['%', hexDigit (b / 16), hexDigit (b % 16)]

/-- The bytes `urllib.parse.quote` leaves unescaped with the default
`safe='/'`: ASCII letters, digits, `-`, `.`, `_`, `~` and `/`. -/
def isSafeByte (b : Nat) : Bool :=
  (65 ≤ b && b ≤ 90) || (97 ≤ b && b ≤ 122) || (48 ≤ b && b ≤ 57) ||
    b == 45 || b == 46 || b == 95 || b == 126 || b == 47

/-- UTF-8 encoding of a Unicode code point as a list of byte values. -/
def utf8Bytes (n : Nat) : List Nat :=
  if n < 0x80 then [n]
  else if n < 0x800 then [0xC0 + n / 64, 0x80 + n % 64]
  else if n < 0x10000 then [0xE0 + n / 4096, 0x80 + n / 64 % 64, 0x80 + n % 64]
  else [0xF0 + n / 262144, 0x80 + n / 4096 % 64, 0x80 + n / 64 % 64, 0x80 + n % 64]

/-- `urllib.parse.quote` on one character: a safe ASCII character is
kept, every other character is UTF-8 encoded and each byte
percent-escaped in uppercase hex. -/
def quoteChar (c : Char) : List Char :=
  if isSafeByte c.toNat then [c] else (utf8Bytes c.toNat).flatMap pctEncode

/-- `urllib.parse.quote(s)` with the default `safe='/'`. -/
def quote (s : String) : String :=
  String.mk (s.data.flatMap quoteChar)

/-- `build_odata_filter` (lines 101-140): URL-encodes the WKT area,
assembles the five fixed clauses, appends the cloud-cover clause when
the collection is exactly `"SENTINEL-2"`, and joins everything with
`" and "`. -/
def build_odata_filter (collection area_wkt start_date end_date product_type : String)
    (max_cloud_cover : Int) : String :=
  let area_encoded := quote area_wkt
  let filter_parts := [
    "Collection/Name eq '" ++ collection ++ "'",
    "OData.CSC.Intersects(area=geography'SRID=4326;" ++ area_encoded ++ "')",
    "ContentDate/Start gt " ++ start_date,
    "ContentDate/Start lt " ++ end_date,
    "Attributes/OData.CSC.StringAttribute/any(att:att/Name eq 'productType' and att/OData.CSC.StringAttribute/Value eq '"
      ++ product_type ++ "')"]
  let filter_parts := if collection = "SENTINEL-2" then
    filter_parts ++
      ["Attributes/OData.CSC.DoubleAttribute/any(att:att/Name eq 'cloudCover' and att/OData.CSC.DoubleAttribute/Value le "
        ++ toString max_cloud_cover ++ ")"]
    else filter_parts
  String.intercalate " and " filter_parts

/-- A JSON-ish attribute value as it arrives from the catalog: absent or
null values collapse to `null` exactly as Python's `None` does in
`attr.get("Value")`. -/
inductive JsonVal where
  | null
  | num (x : Rat)
  | str (s : String)
deriving Repr, DecidableEq

/-- One entry of a raw record's `Attributes` array: a `Name` and a
typed `Value`. -/
structure AttrEntry where
  name : String
  value : JsonVal
deriving Repr, DecidableEq

/-- A raw catalog record as handed to `process_product_attributes`:
`Id`, `Name`, `ContentLength` and the attribute list. -/
structure RawProduct where
  pid : String
  pname : String
  contentLength : Int
  attrs : List AttrEntry
deriving Repr, DecidableEq

/-- The columns `process_product_attributes` writes for one row. -/
structure ProcessedProduct where
  cloudcoverpercentage : JsonVal
  producttype : JsonVal
  title : String
  uuid : String
  size : Int
deriving Repr, DecidableEq

/-- The attribute scan inside `process_product_attributes` (lines
251-255): `cloud_cover` and `product_type` start as `None` and each
matching attribute overwrites the variable — the loop has no break, so
with duplicate names the final, i.e. last, match is kept. -/
def scanAttributes (attrs : List AttrEntry) : JsonVal × JsonVal :=
  attrs.foldl
    (fun acc attr =>
      if attr.name = "cloudCover" then (attr.value, acc.2)
      else if attr.name = "productType" then (acc.1, attr.value)
      else acc)
    (JsonVal.null, JsonVal.null)

/-- The value of the last attribute named `name` in an attribute list,
or `null` when no attribute carries that name.  This is the claim-side
characterisation the scan is compared against. -/
def lastAttrValue (name : String) (attrs : List AttrEntry) : JsonVal :=
  ((attrs.reverse.find? fun a => decide (a.name = name)).map AttrEntry.value).getD .null

/-- The per-row body of `process_product_attributes` (lines 244-261):
scan the attributes and copy `Name`, `Id` and `ContentLength` into the
`title`, `uuid` and `size` columns. -/
def process_row (r : RawProduct) : ProcessedProduct :=
  let p := scanAttributes r.attrs
  ⟨p.1, p.2, r.pname, r.pid, r.contentLength⟩

/-- `process_product_attributes` (lines 231-263) restricted to the
columns it writes: the raw catalog columns it merely copies along are
not modelled. -/
def process_product_attributes (rows : List RawProduct) : List ProcessedProduct :=
  rows.map process_row

end SentinelDownloadCdse

/-- One row of the products dataframe as consumed by either
`select_best_product`: the `cloudcoverpercentage`, `uuid` and `title`
columns.  A missing cloud cover (None/NaN in the dataframe) is `none`. -/
structure ProductRow where
  uuid : String
  title : String
  cloudcoverpercentage : Option Rat
deriving Repr, DecidableEq

/-- The strict order `sort_values('cloudcoverpercentage')` sorts by:
ascending on present values, and a missing value (NaN) compares after
every present value (`na_position='last'`, the pandas default). -/
def ccLt : Option Rat → Option Rat → Bool
  | some a, some b => a < b
  | some _, none => true
  | none, _ => false

/-- Stable insertion of a row in front of the first row not strictly
below it. -/
def insertRow (r : ProductRow) : List ProductRow → List ProductRow
  | [] => [r]
  | x :: xs =>
    if ccLt x.cloudcoverpercentage r.cloudcoverpercentage then x :: insertRow r xs
    else r :: x :: xs

/-- `df.sort_values('cloudcoverpercentage')`: an ascending sort with
missing values last (pandas defaults `ascending=True`,
`na_position='last'`).  Pandas' default `kind='quicksort'` (numpy
introsort) is documented as NOT stable, so the relative order of rows
with equal cloud cover is unspecified by the program for larger
inputs; this executable model fixes one admissible tie order (a stable
insertion sort).  No theorem below depends on the tie order: only the
behaviour on the empty list and the fact that both source files run
the identical sort are used. -/
def sort_values (rows : List ProductRow) : List ProductRow :=
  rows.foldr insertRow []

namespace SentinelDownload

/-- `select_best_product` of `sentinel_download.py` (lines 106-126):
sort by cloud cover ascending and take `iloc[0]`, returning the row's
`uuid` and `title`; on an empty frame `iloc[0]` raises IndexError. -/
def select_best_product (products_df : List ProductRow) : Except PyErr (String × String) :=
  match sort_values products_df with
  | [] => .error .indexError
  | best :: _ => .ok (best.uuid, best.title)

end SentinelDownload

namespace SentinelDownloadCdse

/-- `select_best_product` of `sentinel_download_cdse.py` (lines
266-286): sort by cloud cover ascending and take `iloc[0]`, returning
the row's `uuid` and `title`; on an empty frame `iloc[0]` raises
IndexError. -/
def select_best_product (products_df : List ProductRow) : Except PyErr (String × String) :=
  match sort_values products_df with
  | [] => .error .indexError
  | best :: _ => .ok (best.uuid, best.title)

end SentinelDownloadCdse

section Helpers

open SentinelDownloadCdse

/-- The attribute scan agrees with the last-match characterisation, for
any starting pair: each matching attribute overwrites the accumulator,
so the final value is the last match (or the start value). -/
theorem scanAttributes_foldl_eq (attrs : List AttrEntry) (acc : JsonVal × JsonVal) :
    attrs.foldl
      (fun acc attr =>
        if attr.name = "cloudCover" then (attr.value, acc.2)
        else if attr.name = "productType" then (acc.1, attr.value)
        else acc)
      acc =
      (((attrs.reverse.find? fun a => decide (a.name = "cloudCover")).map AttrEntry.value).getD acc.1,
        ((attrs.reverse.find? fun a => decide (a.name = "productType")).map AttrEntry.value).getD acc.2) := by
  induction attrs generalizing acc with
  | nil => rfl
  | cons a as ih =>
    rw [List.foldl_cons, ih, List.reverse_cons, List.find?_append, List.find?_append]
    rcases hc : as.reverse.find? (fun a => decide (a.name = "cloudCover")) with _ | x <;>
      rcases hp : as.reverse.find? (fun a => decide (a.name = "productType")) with _ | y <;>
      by_cases h1 : a.name = "cloudCover" <;>
      by_cases h2 : a.name = "productType" <;>
      simp [hc, hp, h1, h2, Option.or, List.find?]

/-- `scanAttributes` returns exactly the last `cloudCover` and the last
`productType` attribute values (or null when absent). -/
theorem scanAttributes_eq_last (attrs : List AttrEntry) :
    scanAttributes attrs =
      (lastAttrValue "cloudCover" attrs, lastAttrValue "productType" attrs) :=
  scanAttributes_foldl_eq attrs (.null, .null)

end Helpers

open SentinelDownloadCdse in
/-- Claim C2, counterexample: on a record whose attribute list carries
two `cloudCover` entries, with values 10 and then 20, normalisation
returns the LAST entry's value 20 — the scan loop has no break, so each
match overwrites the previous one and the claim's "the FIRST matching
entry's value wins" is false on this input. -/
theorem process_product_attributes_first_match_refuted :
    (process_product_attributes
        [⟨"id1", "p1", 100, [⟨"cloudCover", .num 10⟩, ⟨"cloudCover", .num 20⟩]⟩]).map
        ProcessedProduct.cloudcoverpercentage = [.num 20] ∧
      JsonVal.num 20 ≠ JsonVal.num 10 := by
  refine ⟨rfl, ?_⟩
  simp only [ne_eq, JsonVal.num.injEq]
  norm_num

open SentinelDownloadCdse in
/-- Claim C2 (amended): normalisation finds `cloudCover` and
`productType` by linear search over the attribute list, and when
duplicate names exist the LAST matching entry's value wins; the record
with {cloudCover 12.5, productType "S2MSI2A"} yields cloud cover 12.5
and product type "S2MSI2A", and a record whose attributes carry neither
name yields a null cloud cover. -/
theorem process_product_attributes_last_match_wins :
    (∀ rows : List RawProduct,
      (process_product_attributes rows).map ProcessedProduct.cloudcoverpercentage =
          rows.map (fun r => lastAttrValue "cloudCover" r.attrs) ∧
        (process_product_attributes rows).map ProcessedProduct.producttype =
          rows.map (fun r => lastAttrValue "productType" r.attrs)) ∧
    (process_product_attributes
        [⟨"id1", "p1", 100, [⟨"cloudCover", .num 12.5⟩, ⟨"productType", .str "S2MSI2A"⟩]⟩]).map
        (fun p => (p.cloudcoverpercentage, p.producttype)) =
        [(.num 12.5, .str "S2MSI2A")] ∧
    ∀ r : RawProduct, (∀ a ∈ r.attrs, a.name ≠ "cloudCover" ∧ a.name ≠ "productType") →
      (process_product_attributes [r]).map ProcessedProduct.cloudcoverpercentage = [.null] := by
  refine ⟨fun rows => ⟨?_, ?_⟩, ?_, fun r h => ?_⟩
  · simp only [process_product_attributes, List.map_map]
    refine List.map_congr_left fun r _ => ?_
    have := scanAttributes_eq_last r.attrs
    simp [process_row, Function.comp, this]
  · simp only [process_product_attributes, List.map_map]
    refine List.map_congr_left fun r _ => ?_
    have := scanAttributes_eq_last r.attrs
    simp [process_row, Function.comp, this]
  · rfl
  · have hscan := scanAttributes_eq_last r.attrs
    have hnone : r.attrs.reverse.find? (fun a => decide (a.name = "cloudCover")) = none := by
      rw [List.find?_eq_none]
      intro a ha
      simp [(h a (List.mem_reverse.mp ha)).1]
    simp [process_product_attributes, process_row, hscan, lastAttrValue, hnone]

open SentinelDownloadCdse in
/-- Claim C9, counterexample: normalisation performs no range check on
the cloud-cover value — a raw record whose `cloudCover` attribute is
150 produces a ProductRecord with cloud cover 150, outside [0, 100]. -/
theorem cloud_cover_range_invariant_refuted :
    (process_product_attributes
        [⟨"id1", "p1", 0, [⟨"cloudCover", .num 150⟩]⟩]).map
        ProcessedProduct.cloudcoverpercentage = [.num 150] ∧
      ¬(0 ≤ (150 : Rat) ∧ (150 : Rat) ≤ 100) := by
  refine ⟨rfl, ?_⟩
  norm_num

open SentinelDownloadCdse in
/-- Claim C9 (amended): normalisation passes the raw cloud-cover value
through unvalidated, so the resulting value lies in [0, 100] exactly
when the raw record's `cloudCover` attribute values do: for every raw
record all of whose `cloudCover` attributes carry a numeric value in
[0, 100], the normalised cloud cover, when numeric, lies in [0, 100]. -/
theorem cloud_cover_range_preserved :
    ∀ rows : List RawProduct,
      (∀ r ∈ rows, ∀ a ∈ r.attrs, a.name = "cloudCover" →
        ∀ x : Rat, a.value = .num x → 0 ≤ x ∧ x ≤ 100) →
      ∀ p ∈ process_product_attributes rows,
        ∀ x : Rat, p.cloudcoverpercentage = .num x → 0 ≤ x ∧ x ≤ 100 := by
  intro rows h p hp x hx
  obtain ⟨r, hr, rfl⟩ := List.mem_map.mp hp
  have hscan := scanAttributes_eq_last r.attrs
  rw [show process_row r = ⟨(scanAttributes r.attrs).1, (scanAttributes r.attrs).2,
      r.pname, r.pid, r.contentLength⟩ from rfl] at hx
  rw [hscan] at hx
  simp only [lastAttrValue] at hx
  rcases hfind : r.attrs.reverse.find? (fun a => decide (a.name = "cloudCover")) with _ | a
  · rw [hfind] at hx
    simp at hx
  · rw [hfind] at hx
    simp only [Option.map_some', Option.getD_some] at hx
    have hmem : a ∈ r.attrs := List.mem_reverse.mp (List.mem_of_find?_eq_some hfind)
    have hname : a.name = "cloudCover" := by
      have := @List.find?_some _ _ _ _ hfind
      simpa using this
    exact h r hr a hmem hname x hx

open SentinelDownloadCdse in
/-- Claim C9 (amended), witness: the in-range hypothesis holds for a
record with cloud cover 12.5, and the conclusion places 12.5 in
[0, 100]. -/
theorem cloud_cover_range_preserved_applied :
    0 ≤ (12.5 : Rat) ∧ (12.5 : Rat) ≤ 100 :=
  cloud_cover_range_preserved [⟨"id1", "p1", 0, [⟨"cloudCover", .num 12.5⟩]⟩]
    (by
      intro r hr a ha hn x hv
      simp only [List.mem_singleton] at hr
      subst hr
      simp only [List.mem_singleton] at ha
      subst ha
      simp only [AttrEntry.mk.injEq] at hv ⊢
      rw [show x = (12.5 : Rat) from by injection hv.symm]
      norm_num)
    (process_row ⟨"id1", "p1", 0, [⟨"cloudCover", .num 12.5⟩]⟩)
    (by exact List.mem_map_of_mem _ (List.mem_singleton.mpr rfl))
    12.5 rfl

open SentinelDownloadCdse in
/-- Claim C2 (amended), witness: a record whose only attribute is named
neither `cloudCover` nor `productType` normalises to a null cloud
cover. -/
theorem process_product_attributes_last_match_wins_applied :
    (process_product_attributes
        [⟨"id1", "p1", 0, [⟨"someOther", .str "x"⟩]⟩]).map
        ProcessedProduct.cloudcoverpercentage = [.null] :=
  process_product_attributes_last_match_wins.2.2
    ⟨"id1", "p1", 0, [⟨"someOther", .str "x"⟩]⟩ (by decide)

open SentinelDownloadCdse in
/-- Claim C6, counterexample: a two-ring polygon is not rejected —
`geojson_to_wkt` silently uses the exterior ring and drops the interior
ring, so the claim's "fails with UnsupportedGeometryError for every
multi-ring polygon input" is false on this input. -/
theorem geojson_to_wkt_multi_ring_accepted :
    geojson_to_wkt
        ⟨"Polygon", [[(0, 0), (4, 0), (4, 4), (0, 0)], [(1, 1), (2, 1), (1, 2), (1, 1)]]⟩ =
      .ok "POLYGON((0 0, 4 0, 4 4, 0 0))" := by
  decide

open SentinelDownloadCdse in
/-- Claim C6 (amended): `geojson_to_wkt` fails with the unsupported
geometry ValueError exactly for inputs whose type is not "Polygon"; a
polygon with at least one ring — whatever the number of rings — emits
`POLYGON((lon lat, lon lat, ...))` from the exterior ring's coordinates
in source order, space-separated within a pair and comma-joined between
pairs, ignoring interior rings. -/
theorem geojson_to_wkt_polygon_only :
    (∀ g : GeoJson, g.type ≠ "Polygon" →
        geojson_to_wkt g = .error (.valueError "Only Polygon geometry is supported")) ∧
      ∀ (ring : List (Int × Int)) (rest : List (List (Int × Int))),
        geojson_to_wkt ⟨"Polygon", ring :: rest⟩ =
          .ok ("POLYGON((" ++
            String.intercalate ", " (ring.map fun p => toString p.1 ++ " " ++ toString p.2)
            ++ "))") := by
  constructor
  · intro g h
    simp [geojson_to_wkt, h]
  · intro ring rest
    simp [geojson_to_wkt]

open SentinelDownloadCdse in
/-- Claim C6 (amended), witness: a non-Polygon type is rejected and a
concrete single-ring square renders as claimed. -/
theorem geojson_to_wkt_polygon_only_applied :
    geojson_to_wkt ⟨"Point", [[(0, 0)]]⟩ =
        .error (.valueError "Only Polygon geometry is supported") ∧
      geojson_to_wkt ⟨"Polygon", [[(0, 0), (4, 0), (4, 4), (0, 0)]]⟩ =
        .ok ("POLYGON((" ++
          String.intercalate ", "
            ([((0 : Int), (0 : Int)), (4, 0), (4, 4), (0, 0)].map
              fun p => toString p.1 ++ " " ++ toString p.2) ++ "))") :=
  ⟨geojson_to_wkt_polygon_only.1 ⟨"Point", [[(0, 0)]]⟩ (by decide),
    geojson_to_wkt_polygon_only.2 [(0, 0), (4, 0), (4, 4), (0, 0)] []⟩

/-- Claim C8: `select_best_product` never returns a record for an empty
input — sorting an empty frame and taking `iloc[0]` raises an
IndexError (the spec's EmptySelectionError names this selection-step
failure). -/
theorem select_best_product_empty_fails :
    SentinelDownloadCdse.select_best_product [] = .error .indexError := rfl

/-- Claim C10: the legacy selector of `sentinel_download.py` and the
CDSE selector of `sentinel_download_cdse.py` are behaviourally
equivalent — on every products table with `cloudcoverpercentage`,
`uuid` and `title` columns they return the same (id, title) pair or
fail alike. -/
theorem legacy_and_cdse_selectors_equivalent :
    ∀ rows : List ProductRow,
      SentinelDownload.select_best_product rows =
        SentinelDownloadCdse.select_best_product rows :=
  fun _ => rfl

/-- Claim C4 (code bug): a 43-character title — shorter than 44 — is not
rejected: `construct_s3_path` silently returns the truncated path
`tiles/30/U/X/2025/1/1/` (the square field reduced to one character)
instead of raising any error, contradicting the spec's
MalformedIdentifierError contract. -/
theorem construct_s3_path_truncates_short_title :
    "S2A_MSIL2A_20250101T103421_N0511_R008_T30UX".length = 43 ∧
      SentinelDownload.construct_s3_path "S2A_MSIL2A_20250101T103421_N0511_R008_T30UX" =
        .ok "tiles/30/U/X/2025/1/1/" := by
  decide

/-- Composing two Python slices: slicing a slice re-indexes into the
original list. -/
theorem pySlice_comp (l : List Char) (a b c d : Nat) :
    pySlice (pySlice l a b) c d = pySlice l (a + c) (min (a + d) b) := by
  simp only [pySlice, List.drop_take, List.take_take, List.drop_drop]
  congr 1
  omega

/-- A slice of width two inside a list with at least 17 elements has
length two, hence is non-empty. -/
theorem pySlice_two_nonempty (l : List Char) (a : Nat) (h : a + 2 ≤ l.length) :
    (pySlice l a (a + 2)).isEmpty = false := by
  have hlen : (pySlice l a (a + 2)).length = 2 := by
    simp only [pySlice, List.length_take, List.length_drop]
    omega
  cases hq : pySlice l a (a + 2) with
  | nil => rw [hq] at hlen; simp at hlen
  | cons x xs => rfl

/-- Claim C1: for the title
"S2A_MSIL2A_20250101T103421_N0511_R008_T30UXC_20250101T123456" the path
resolver returns exactly "tiles/30/U/XC/2025/1/1/"; and for every title
of sufficient length (≥ 44) whose month and day character fields are
digits, `construct_s3_path` extracts the 8-character date field at
offsets 11-18 and the 6-character tile field at offsets 38-43 by
character position and builds
`tiles/<zone>/<band>/<square>/<year>/<month>/<day>/` — zone = characters
39-40, band = character 41, square = characters 42-43, year = characters
11-14, and month/day are the decimal values of characters 15-16 and
17-18, i.e. with leading zeros stripped. -/
theorem construct_s3_path_fixed_offsets :
    SentinelDownload.construct_s3_path
        "S2A_MSIL2A_20250101T103421_N0511_R008_T30UXC_20250101T123456" =
      .ok "tiles/30/U/XC/2025/1/1/" ∧
    ∀ t : String, 44 ≤ t.length →
      (pySlice t.data 15 17).all Char.isDigit →
      (pySlice t.data 17 19).all Char.isDigit →
      SentinelDownload.construct_s3_path t =
        .ok ("tiles/" ++ String.mk (pySlice t.data 39 41) ++ "/"
          ++ String.mk (pySlice t.data 41 42) ++ "/" ++ String.mk (pySlice t.data 42 44) ++ "/"
          ++ String.mk (pySlice t.data 11 15) ++ "/"
          ++ toString (digitsVal (pySlice t.data 15 17)) ++ "/"
          ++ toString (digitsVal (pySlice t.data 17 19)) ++ "/") := by
  constructor
  · decide
  · intro t h44 hm hd
    have h44' : 44 ≤ t.data.length := h44
    have hm' : pyIntOfString (pySlice t.data 15 17) =
        some (digitsVal (pySlice t.data 15 17)) := by
      have := pySlice_two_nonempty t.data 15 (by omega)
      simp only [pyIntOfString, this, hm, Bool.not_false, Bool.and_self, if_pos]
    have hd' : pyIntOfString (pySlice t.data 17 19) =
        some (digitsVal (pySlice t.data 17 19)) := by
      have := pySlice_two_nonempty t.data 17 (by omega)
      simp only [pyIntOfString, this, hd, Bool.not_false, Bool.and_self, if_pos]
    show SentinelDownload.construct_s3_path t = _
    unfold SentinelDownload.construct_s3_path
    simp only [pySlice_comp]
    norm_num
    rw [hm', hd']

/-- Claim C1, witness: the general offset theorem applied to the
example title evaluates to the claimed path. -/
theorem construct_s3_path_fixed_offsets_applied :
    SentinelDownload.construct_s3_path
        "S2A_MSIL2A_20250101T103421_N0511_R008_T30UXC_20250101T123456" =
      .ok "tiles/30/U/XC/2025/1/1/" :=
  (construct_s3_path_fixed_offsets.2
      "S2A_MSIL2A_20250101T103421_N0511_R008_T30UXC_20250101T123456"
      (by decide) (by decide) (by decide)).trans (by decide)

/-- A hex digit character is never an apostrophe. -/
theorem hexDigit_ne_apostrophe (n : Nat) : SentinelDownloadCdse.hexDigit n ≠ '\'' := by
  unfold SentinelDownloadCdse.hexDigit
  by_cases h : n < 16
  · interval_cases n <;> decide
  · rw [List.getD_eq_default]
    · decide
    · have : ("0123456789ABCDEF".data).length = 16 := by decide
      omega

/-- No character emitted by `quoteChar` is an apostrophe: safe bytes
exclude code point 39 and percent-escapes consist of `%` and hex
digits. -/
theorem quoteChar_ne_apostrophe (c : Char) : ∀ x ∈ SentinelDownloadCdse.quoteChar c, x ≠ '\'' := by
  intro x hx
  unfold SentinelDownloadCdse.quoteChar at hx
  split at hx
  · rename_i hsafe
    simp only [List.mem_singleton] at hx
    subst hx
    intro he
    rw [he] at hsafe
    exact absurd hsafe (by decide)
  · rw [List.mem_flatMap] at hx
    obtain ⟨b, _, hxb⟩ := hx
    simp only [SentinelDownloadCdse.pctEncode, List.mem_cons, List.mem_singleton,
      List.not_mem_nil, or_false] at hxb
    rcases hxb with h | h | h
    · subst h; decide
    · subst h; exact hexDigit_ne_apostrophe _
    · subst h; exact hexDigit_ne_apostrophe _

/-- `urllib.parse.quote` output never contains a literal apostrophe. -/
theorem quote_no_apostrophe (s : String) : ∀ c ∈ (SentinelDownloadCdse.quote s).data, c ≠ '\'' := by
  intro c hc
  have : c ∈ s.data.flatMap SentinelDownloadCdse.quoteChar := hc
  rw [List.mem_flatMap] at this
  obtain ⟨a, _, hca⟩ := this
  exact quoteChar_ne_apostrophe a c hca

open SentinelDownloadCdse in
/-- Claim C5: for every input, `build_odata_filter` returns " and
"-joined clauses in the fixed order collection-equality, spatial
intersection (URL-encoded WKT tagged SRID=4326), start instant strictly
greater, end instant strictly less, product-type any-quantifier, and —
exactly when the collection is "SENTINEL-2", the code's test for a
cloud-cover attribute — a sixth cloud-cover threshold clause; the
percent-encoded WKT segment contains no literal single quote, so the
only quotes around it are the geography cast's own. -/
theorem build_odata_filter_clause_structure :
    ∀ (collection area_wkt start_date end_date product_type : String) (max_cloud_cover : Int),
      (∀ c ∈ (quote area_wkt).data, c ≠ '\'') ∧
      (collection = "SENTINEL-2" →
        build_odata_filter collection area_wkt start_date end_date product_type max_cloud_cover =
          String.intercalate " and "
            ["Collection/Name eq '" ++ collection ++ "'",
             "OData.CSC.Intersects(area=geography'SRID=4326;" ++ quote area_wkt ++ "')",
             "ContentDate/Start gt " ++ start_date,
             "ContentDate/Start lt " ++ end_date,
             "Attributes/OData.CSC.StringAttribute/any(att:att/Name eq 'productType' and att/OData.CSC.StringAttribute/Value eq '"
               ++ product_type ++ "')",
             "Attributes/OData.CSC.DoubleAttribute/any(att:att/Name eq 'cloudCover' and att/OData.CSC.DoubleAttribute/Value le "
               ++ toString max_cloud_cover ++ ")"]) ∧
      (collection ≠ "SENTINEL-2" →
        build_odata_filter collection area_wkt start_date end_date product_type max_cloud_cover =
          String.intercalate " and "
            ["Collection/Name eq '" ++ collection ++ "'",
             "OData.CSC.Intersects(area=geography'SRID=4326;" ++ quote area_wkt ++ "')",
             "ContentDate/Start gt " ++ start_date,
             "ContentDate/Start lt " ++ end_date,
             "Attributes/OData.CSC.StringAttribute/any(att:att/Name eq 'productType' and att/OData.CSC.StringAttribute/Value eq '"
               ++ product_type ++ "')"]) := by
  intro collection area_wkt start_date end_date product_type max_cloud_cover
  refine ⟨quote_no_apostrophe area_wkt, fun h => ?_, fun h => ?_⟩
  · simp [build_odata_filter, h]
  · simp [build_odata_filter, h]

open SentinelDownloadCdse in
/-- Claim C5, witness: the clause structure evaluated at a SENTINEL-2
query (six clauses) and a SENTINEL-1 query (five clauses). -/
theorem build_odata_filter_clause_structure_applied :
    build_odata_filter "SENTINEL-2" "POLYGON((0 0, 4 4, 0 0))" "A" "B" "S2MSI2A" 20 =
        String.intercalate " and "
          ["Collection/Name eq 'SENTINEL-2'",
           "OData.CSC.Intersects(area=geography'SRID=4326;" ++ quote "POLYGON((0 0, 4 4, 0 0))" ++ "')",
           "ContentDate/Start gt A",
           "ContentDate/Start lt B",
           "Attributes/OData.CSC.StringAttribute/any(att:att/Name eq 'productType' and att/OData.CSC.StringAttribute/Value eq 'S2MSI2A')",
           "Attributes/OData.CSC.DoubleAttribute/any(att:att/Name eq 'cloudCover' and att/OData.CSC.DoubleAttribute/Value le 20)"] ∧
      build_odata_filter "SENTINEL-1" "POLYGON((0 0, 4 4, 0 0))" "A" "B" "IW_GRDH_1S" 20 =
        String.intercalate " and "
          ["Collection/Name eq 'SENTINEL-1'",
           "OData.CSC.Intersects(area=geography'SRID=4326;" ++ quote "POLYGON((0 0, 4 4, 0 0))" ++ "')",
           "ContentDate/Start gt A",
           "ContentDate/Start lt B",
           "Attributes/OData.CSC.StringAttribute/any(att:att/Name eq 'productType' and att/OData.CSC.StringAttribute/Value eq 'IW_GRDH_1S')"] :=
  ⟨(build_odata_filter_clause_structure "SENTINEL-2" "POLYGON((0 0, 4 4, 0 0))" "A" "B" "S2MSI2A" 20).2.1 rfl,
    (build_odata_filter_clause_structure "SENTINEL-1" "POLYGON((0 0, 4 4, 0 0))" "A" "B" "IW_GRDH_1S" 20).2.2 (by decide)⟩

/-- `%02d` padding yields exactly two characters for values up to 99. -/
theorem pad2_length (n : Nat) (h : n ≤ 99) : (SentinelDownloadCdse.pad2 n).length = 2 := by
  interval_cases n <;> decide

open SentinelDownloadCdse in
/-- Claim C7: `format_date_for_cdse` normalises an 8-digit calendar
string "YYYYMMDD" to "YYYY-MM-DDT00:00:00.000Z" (splitting exactly at
the year/month/day character boundaries), renders a date — and a
datetime, whose time of day is ignored — as the same "YYYY-MM-DD"
followed by the fixed midnight suffix, agrees on the two encodings of
one calendar day, and raises the unsupported-format ValueError (the
spec's InvalidDateError) for a value of any other type. -/
theorem format_date_for_cdse_normalizes :
    (∀ c1 c2 c3 c4 c5 c6 c7 c8 : Char,
      ([c1, c2, c3, c4, c5, c6, c7, c8].all Char.isDigit) →
        format_date_for_cdse (.strVal (String.mk [c1, c2, c3, c4, c5, c6, c7, c8])) =
          .ok (String.mk [c1, c2, c3, c4] ++ "-" ++ String.mk [c5, c6] ++ "-"
            ++ String.mk [c7, c8] ++ "T00:00:00.000Z")) ∧
    (∀ y m d : Nat, format_date_for_cdse (.dateVal y m d) =
        .ok (toString y ++ "-" ++ pad2 m ++ "-" ++ pad2 d ++ "T00:00:00.000Z")) ∧
    (∀ y m d hh mi ss : Nat,
        format_date_for_cdse (.datetimeVal y m d hh mi ss) =
          format_date_for_cdse (.dateVal y m d)) ∧
    (∀ y m d : Nat, (toString y).length = 4 → m ≤ 99 → d ≤ 99 →
        format_date_for_cdse (.strVal (toString y ++ pad2 m ++ pad2 d)) =
          format_date_for_cdse (.dateVal y m d)) ∧
    (∀ tyName : String, format_date_for_cdse (.otherVal tyName) =
        .error (.valueError ("Unsupported date format: " ++ tyName))) := by
  refine ⟨fun c1 c2 c3 c4 c5 c6 c7 c8 _ => rfl, fun y m d => rfl,
    fun y m d hh mi ss => rfl, fun y m d hy hm hd => ?_, fun tyName => rfl⟩
  have hy' : (toString y).data.length = 4 := hy
  have hm2' : (pad2 m).data.length = 2 := pad2_length m hm
  have hd2' : (pad2 d).data.length = 2 := pad2_length d hd
  have hdata : (toString y ++ pad2 m ++ pad2 d).data
      = (toString y).data ++ ((pad2 m).data ++ (pad2 d).data) := by
    rw [String.data_append, String.data_append, List.append_assoc]
  have s1 : pySlice (toString y ++ pad2 m ++ pad2 d).data 0 4 = (toString y).data := by
    rw [hdata]
    simp only [pySlice, List.drop_zero, Nat.sub_zero]
    exact List.take_left' hy'
  have s2 : pySlice (toString y ++ pad2 m ++ pad2 d).data 4 6 = (pad2 m).data := by
    rw [hdata]
    simp only [pySlice]
    rw [List.drop_left' hy']
    norm_num
    exact List.take_left' hm2'
  have s3 : pySlice (toString y ++ pad2 m ++ pad2 d).data 6 8 = (pad2 d).data := by
    have hdata2 : (toString y ++ pad2 m ++ pad2 d).data
        = ((toString y).data ++ (pad2 m).data) ++ (pad2 d).data := by
      rw [String.data_append, String.data_append]
    rw [hdata2]
    simp only [pySlice]
    have h6 : ((toString y).data ++ (pad2 m).data).length = 6 := by
      rw [List.length_append, hy', hm2']
    rw [List.drop_left' h6]
    norm_num
    exact le_of_eq (pad2_length d hd)
  show Except.ok _ = _
  rw [s1, s2, s3]
  rfl

open SentinelDownloadCdse in
/-- Claim C7, witness: both encodings of 2025-01-07 normalise to the
same midnight instant, and a non-date value is rejected. -/
theorem format_date_for_cdse_normalizes_applied :
    format_date_for_cdse (.strVal (String.mk ['2', '0', '2', '5', '0', '1', '0', '7'])) =
        .ok "2025-01-07T00:00:00.000Z" ∧
      format_date_for_cdse (.strVal (toString 2025 ++ pad2 1 ++ pad2 7)) =
        format_date_for_cdse (.dateVal 2025 1 7) ∧
      format_date_for_cdse (.otherVal "<class 'int'>") =
        .error (.valueError "Unsupported date format: <class 'int'>") :=
  ⟨(format_date_for_cdse_normalizes.1 '2' '0' '2' '5' '0' '1' '0' '7' (by decide)).trans
      (by decide),
    format_date_for_cdse_normalizes.2.2.2.1 2025 1 7 (by decide) (by decide) (by decide),
    format_date_for_cdse_normalizes.2.2.2.2 "<class 'int'>"⟩
